import Mathlib

/-!
Verification of the Seller Hub reseller-marketplace dashboard.

The development shallowly embeds the repository's business logic:
the fee provider `getFees` with its in-process cache, the pure payout
calculator `calculatePayout`, the price-comparison indicators of the
listing screens, the market-price query, the admin create-sale action,
the PGRST116 (no-row-found) error handling, and the add-listing
submission guard.  Monetary amounts are modelled as exact rationals.
-/

/-! ### Fee provider (`lib/fees.ts`) -/

/-- The `AdminSettings` record fetched from the `admin_settings` table:
a fee fraction and a fixed fee component. -/
structure AdminSettings where
  fee_percent : ℚ
  fee_fixed : ℚ
deriving DecidableEq

/-- Outcome of the supabase `.single()` query against `admin_settings`:
either the request errored (the `if (error) throw error` path), or it
succeeded carrying an optional data row. -/
inductive FetchResult where
  | failure
  | success (data : Option AdminSettings)
deriving DecidableEq

/-- The hardcoded fallback `{ fee_percent: 0.2, fee_fixed: 5 }`. -/
def defaultFees : AdminSettings := ⟨1/5, 5⟩

/-- Function `getFees` from `lib/fees.ts`, with the module-level mutable
`cachedSettings` made explicit: the function receives the current cache
and the result the backend fetch would produce, and returns the value
handed to the caller together with the new cache.  When the cache is
populated the fetch argument is never examined (the early return). -/
def getFees (cachedSettings : Option AdminSettings) (fetch : FetchResult) :
    AdminSettings × Option AdminSettings :=
  match cachedSettings with
  | some s => (s, some s)
  | none =>
    match fetch with
    | .failure => (defaultFees, none)
    | .success (some d) => (d, some d)
    | .success none => (defaultFees, none)

/-- Function `calculatePayout` from `lib/fees.ts`:
the seller receives the price minus the percentage fee minus the fixed fee. -/
def calculatePayout (price feePercent feeFixed : ℚ) : ℚ :=
  price * (1 - feePercent) - feeFixed

/-- C1: on the documented domain, `calculatePayout` equals
`price * (1 - feePercent) - feeFixed`, and the two worked examples
`calculatePayout 100 0.2 5 = 75` and `calculatePayout 20 0.2 5 = 11` hold. -/
theorem calculatePayout_formula (price feePercent feeFixed : ℚ)
    (hp : 0 ≤ price) (hf0 : 0 ≤ feePercent) (hf1 : feePercent ≤ 1)
    (hx : 0 ≤ feeFixed) :
    calculatePayout price feePercent feeFixed
      = price * (1 - feePercent) - feeFixed
    ∧ calculatePayout 100 (1/5) 5 = 75
    ∧ calculatePayout 20 (1/5) 5 = 11 := by
  refine ⟨rfl, ?_, ?_⟩ <;> norm_num [calculatePayout]

/-- Witness for C1 at price 100, feePercent 1/5, feeFixed 5. -/
theorem calculatePayout_formula_witness :
    calculatePayout 100 (1/5) 5 = 100 * (1 - 1/5) - 5
    ∧ calculatePayout 100 (1/5) 5 = 75
    ∧ calculatePayout 20 (1/5) 5 = 11 :=
  calculatePayout_formula 100 (1/5) 5 (by norm_num) (by norm_num)
    (by norm_num) (by norm_num)

/-- C7: on the domain price ≥ 0, 0 ≤ feePercent ≤ 1, feeFixed ≥ 0, the
payout is monotonically increasing in the price and monotonically
decreasing in each fee parameter. -/
theorem calculatePayout_monotone
    (p p₁ p₂ f f₁ f₂ x x₁ x₂ : ℚ)
    (hp : 0 ≤ p) (hf0 : 0 ≤ f) (hf1 : f ≤ 1)
    (hpp : p₁ ≤ p₂) (hff : f₁ ≤ f₂) (hxx : x₁ ≤ x₂) :
    calculatePayout p₁ f x ≤ calculatePayout p₂ f x
    ∧ calculatePayout p f₂ x ≤ calculatePayout p f₁ x
    ∧ calculatePayout p f x₂ ≤ calculatePayout p f x₁ := by
  unfold calculatePayout
  refine ⟨?_, ?_, ?_⟩ <;> nlinarith

/-- Witness for C7 at p = 50, p₁ = 10 ≤ p₂ = 20, f = 1/5,
f₁ = 1/10 ≤ f₂ = 1/2, x = 5, x₁ = 3 ≤ x₂ = 8. -/
theorem calculatePayout_monotone_witness :
    calculatePayout 10 (1/5) 5 ≤ calculatePayout 20 (1/5) 5
    ∧ calculatePayout 50 (1/2) 5 ≤ calculatePayout 50 (1/10) 5
    ∧ calculatePayout 50 (1/5) 8 ≤ calculatePayout 50 (1/5) 3 :=
  calculatePayout_monotone 50 10 20 (1/5) (1/10) (1/2) 5 3 8
    (by norm_num) (by norm_num) (by norm_num) (by norm_num)
    (by norm_num) (by norm_num)

/-- C8: `calculatePayout` has no floor at zero: there are non-negative
inputs (price ≥ 0, 0 ≤ feePercent ≤ 1, feeFixed ≥ 0) with a strictly
negative result, and in particular `calculatePayout 10 0.5 8 = -3`. -/
theorem calculatePayout_no_floor :
    (∃ p f x : ℚ, 0 ≤ p ∧ 0 ≤ f ∧ f ≤ 1 ∧ 0 ≤ x
      ∧ calculatePayout p f x < 0)
    ∧ calculatePayout 10 (1/2) 8 = -3 := by
  constructor
  · exact ⟨10, 1/2, 8, by norm_num, by norm_num, by norm_num, by norm_num,
      by norm_num [calculatePayout]⟩
  · norm_num [calculatePayout]

/-- C4: when the `admin_settings` fetch errors or returns no row,
`getFees` returns exactly `{ fee_percent: 0.2, fee_fixed: 5 }` and leaves
the cache empty, so the immediately following call reaches the backend
again (its result still depends on what the next fetch returns). -/
theorem getFees_default_not_cached (d : AdminSettings) :
    getFees none .failure = (⟨1/5, 5⟩, none)
    ∧ getFees none (.success none) = (⟨1/5, 5⟩, none)
    ∧ getFees none (.success (some d)) = (d, some d) :=
  ⟨rfl, rfl, rfl⟩

/-- Counterexample to C3 as stated: when the first `getFees` call fails
(and therefore falls back to the defaults without caching), the second
call does consult the backend and can return a different value. -/
theorem getFees_second_call_differs :
    (getFees (getFees none .failure).2
        (.success (some ⟨1/10, 2⟩))).1
      ≠ (getFees none .failure).1 := by
  simp only [getFees, defaultFees, ne_eq, AdminSettings.mk.injEq]
  norm_num

/-- C3 (amended): once a call to `getFees` has successfully fetched a
settings row, the row is cached, and every subsequent call returns that
identical cached value without consulting the backend — its result is
the same whatever the backend would now answer, even if the backing
`admin_settings` data changed between the calls. -/
theorem getFees_cache_hit (s : AdminSettings) (f₂ f₂' : FetchResult) :
    (getFees none (.success (some s))).2 = some s
    ∧ (getFees (some s) f₂).1 = s
    ∧ getFees (some s) f₂ = getFees (some s) f₂'
    ∧ (getFees (some s) f₂).2 = some s :=
  ⟨rfl, rfl, rfl, rfl⟩

/-! ### Market price (`Dashboard.tsx` / `EditProductModal.tsx`) -/

/-- A row of the `product_sizes` table. -/
structure ProductSize where
  product_id : String
  size : String
  price : ℚ
  status : String
deriving DecidableEq

/-- The rows kept by the chained supabase filters
`.eq('product_id', …).eq('size', …).eq('status', 'Skladom')`. -/
def matchingSizes (rows : List ProductSize) (pid sz : String) :
    List ProductSize :=
  rows.filter fun r => r.product_id == pid && r.size == sz
    && r.status == "Skladom"

/-- Function `fetchCurrentMarketPrice` from `EditProductModal.tsx` (the
same query is issued per listing inside `fetchProducts` in
`Dashboard.tsx`): filter the in-stock rows of the product/size pair,
order by price ascending, take the first row if any
(`.order('price', { ascending: true }).limit(1).single()`). -/
def fetchCurrentMarketPrice (rows : List ProductSize) (pid sz : String) :
    Option ℚ :=
  (List.insertionSort (fun a b : ℚ => a ≤ b)
    ((matchingSizes rows pid sz).map ProductSize.price)).head?

/-- Modelled from the spec: "the minimum `price` among rows with
`status = Skladom` for that `(product_id, size)` pair", written as a
direct structural minimum of a price list, to be compared against the
order-then-take-first computation of the code. -/
def minPrice? : List ℚ → Option ℚ
  | [] => none
  | p :: ps =>
    match minPrice? ps with
    | none => some p
    | some m => some (min p m)

theorem head?_orderedInsert (a : ℚ) (l : List ℚ) :
    (List.orderedInsert (fun a b : ℚ => a ≤ b) a l).head?
      = some (l.head?.elim a (min a)) := by
  cases l with
  | nil => rfl
  | cons b t =>
    by_cases h : a ≤ b
    · simp [List.orderedInsert, h, min_eq_left h]
    · simp [List.orderedInsert, h, min_eq_right (le_of_not_le h)]

theorem head?_insertionSort (l : List ℚ) :
    (List.insertionSort (fun a b : ℚ => a ≤ b) l).head? = minPrice? l := by
  induction l with
  | nil => rfl
  | cons a t ih =>
    simp only [List.insertionSort]
    rw [head?_orderedInsert, ih]
    cases h : minPrice? t <;> simp [minPrice?, h]

theorem minPrice?_eq_none (l : List ℚ) : minPrice? l = none ↔ l = [] := by
  cases l with
  | nil => simp [minPrice?]
  | cons a t => cases h : minPrice? t <;> simp [minPrice?, h]

theorem minPrice?_min (l : List ℚ) (m : ℚ) (h : minPrice? l = some m) :
    m ∈ l ∧ ∀ x ∈ l, m ≤ x := by
  induction l generalizing m with
  | nil => simp [minPrice?] at h
  | cons a t ih =>
    cases ht : minPrice? t with
    | none =>
      have ht' : t = [] := (minPrice?_eq_none t).1 ht
      subst ht'
      simp [minPrice?] at h
      subst h
      simp
    | some m' =>
      simp [minPrice?, ht] at h
      obtain ⟨hm', hall⟩ := ih m' ht
      subst h
      constructor
      · rcases le_total a m' with h' | h'
        · rw [min_eq_left h']; exact List.mem_cons_self a t
        · rw [min_eq_right h']; exact List.mem_cons_of_mem a hm'
      · intro x hx
        rcases List.mem_cons.mp hx with rfl | hx
        · exact min_le_left _ _
        · exact le_trans (min_le_right _ _) (hall x hx)

theorem mem_matchingSizes (rows : List ProductSize) (pid sz : String)
    (r : ProductSize) :
    r ∈ matchingSizes rows pid sz
      ↔ r ∈ rows ∧ r.product_id = pid ∧ r.size = sz
        ∧ r.status = "Skladom" := by
  simp [matchingSizes, List.mem_filter, and_assoc]

/-- C6: for every product/size pair, the market price produced by the
listing screens is a price of an in-stock (`status = 'Skladom'`) row of
that pair and is a lower bound of all such rows — i.e. it is their
minimum — and no market price is produced exactly when no such row
exists. -/
theorem fetchCurrentMarketPrice_is_min (rows : List ProductSize)
    (pid sz : String) :
    (∀ m, fetchCurrentMarketPrice rows pid sz = some m →
      (∃ r ∈ rows, r.product_id = pid ∧ r.size = sz
        ∧ r.status = "Skladom" ∧ r.price = m)
      ∧ ∀ r ∈ rows, r.product_id = pid → r.size = sz →
          r.status = "Skladom" → m ≤ r.price)
    ∧ (fetchCurrentMarketPrice rows pid sz = none ↔
        ∀ r ∈ rows, ¬(r.product_id = pid ∧ r.size = sz
          ∧ r.status = "Skladom")) := by
  constructor
  · intro m h
    rw [fetchCurrentMarketPrice, head?_insertionSort] at h
    obtain ⟨hmem, hall⟩ := minPrice?_min _ m h
    constructor
    · obtain ⟨r, hr, hpr⟩ := List.mem_map.mp hmem
      obtain ⟨hrows, h1, h2, h3⟩ := (mem_matchingSizes rows pid sz r).mp hr
      exact ⟨r, hrows, h1, h2, h3, hpr⟩
    · intro r hr h1 h2 h3
      exact hall r.price (List.mem_map_of_mem ProductSize.price
        ((mem_matchingSizes rows pid sz r).mpr ⟨hr, h1, h2, h3⟩))
  · rw [fetchCurrentMarketPrice, head?_insertionSort, minPrice?_eq_none,
      List.map_eq_nil_iff, List.eq_nil_iff_forall_not_mem]
    constructor
    · intro hn r hr hc
      exact hn r ((mem_matchingSizes rows pid sz r).mpr
        ⟨hr, hc.1, hc.2.1, hc.2.2⟩)
    · intro hn r hr
      obtain ⟨h0, h1, h2, h3⟩ := (mem_matchingSizes rows pid sz r).mp hr
      exact hn r h0 ⟨h1, h2, h3⟩

/-- Concrete `product_sizes` rows used to witness the market-price
query: two in-stock rows (prices 190 and 180) and a cheaper sold-out
row for the same pair, plus an in-stock row of another size. -/
def marketRows : List ProductSize :=
  [⟨"p1", "42", 190, "Skladom"⟩, ⟨"p1", "42", 180, "Skladom"⟩,
   ⟨"p1", "42", 170, "Vypredané"⟩, ⟨"p1", "43", 100, "Skladom"⟩]

/-- Witness for C6: on `marketRows` the query returns 180, which is a
price of an in-stock row of the pair and a lower bound of them all. -/
theorem fetchCurrentMarketPrice_is_min_witness :
    (∃ r ∈ marketRows, r.product_id = "p1" ∧ r.size = "42"
      ∧ r.status = "Skladom" ∧ r.price = 180)
    ∧ ∀ r ∈ marketRows, r.product_id = "p1" → r.size = "42" →
        r.status = "Skladom" → 180 ≤ r.price :=
  (fetchCurrentMarketPrice_is_min marketRows "p1" "42").1 180 (by
    norm_num [fetchCurrentMarketPrice, matchingSizes, marketRows,
      List.insertionSort, List.orderedInsert])

/-! ### Price-comparison indicators (`Dashboard.tsx`, `AddProductModal.tsx`) -/

/-- The visual flag of the price cell in the Dashboard product card:
the `priceColor`/`priceIndicator` pair collapses to green (🟢 /
`text-green-600`), red (🔴 / `text-red-600`) or the plain default. -/
inductive PriceFlag where
  | green
  | red
  | plain
deriving DecidableEq

/-- The `priceStatus` annotation shown under the price: nothing, a
savings delta `(-d €)`, or a markup delta `(+d €)`. -/
inductive PriceDelta where
  | noneShown
  | savings (d : ℚ)
  | markup (d : ℚ)
deriving DecidableEq

/-- The indicator computed inline in `Dashboard.tsx` for each listing.
The guard `if (currentMarketPrice)` is a JS truthiness test, so both an
absent and a zero market price leave the plain indicator. -/
def dashboardPriceIndicator (price : ℚ) (currentMarketPrice : Option ℚ) :
    PriceFlag × PriceDelta :=
  match currentMarketPrice with
  | none => (.plain, .noneShown)
  | some m =>
    if m = 0 then (.plain, .noneShown)
    else if price ≤ m then
      (.green, if price < m then .savings (m - price) else .noneShown)
    else (.red, .markup (price - m))

/-- The live price feedback of `AddProductModal.tsx`: neutral text, the
red warning that the entered price exceeds the lowest market price, or
the green note that the entered price will be the new lowest. -/
inductive ModalPriceMessage where
  | neutral
  | tooHigh
  | newLowest (p : ℚ)
deriving DecidableEq

/-- The `priceColor`/`priceMessage` computation of `AddProductModal.tsx`:
feedback is shown only when the entered price parses and is strictly
positive; above the recommended (lowest in-stock) price it warns, below
it is favorable, and at equality nothing is shown. -/
def addModalPriceMessage (parsedPrice : Option ℚ) (recommendedPrice : ℚ) :
    ModalPriceMessage :=
  match parsedPrice with
  | none => .neutral
  | some p =>
    if 0 < p then
      if recommendedPrice < p then .tooHigh
      else if p < recommendedPrice then .newLowest p
      else .neutral
    else .neutral

/-- Counterexample to C2 as stated: a listing whose market price exists
but is zero (an in-stock `product_sizes` row with price 0, which the
schema permits).  The seller price 5 exceeds the market price 0, so the
claim demands an unfavorable markup indicator, but the JS truthiness
guard `if (currentMarketPrice)` drops the zero and the Dashboard renders
the plain indicator with no delta at all. -/
theorem dashboardPriceIndicator_zero_market :
    fetchCurrentMarketPrice [⟨"p1", "42", 0, "Skladom"⟩] "p1" "42" = some 0
    ∧ dashboardPriceIndicator 5 (some 0) = (.plain, .noneShown)
    ∧ dashboardPriceIndicator 5 (some 0) ≠ (.red, .markup 5) := by
  refine ⟨?_, ?_, ?_⟩ <;>
    simp [fetchCurrentMarketPrice, matchingSizes, dashboardPriceIndicator,
      List.insertionSort, List.orderedInsert]

/-- C2 (amended): for every listing whose market price is positive (a
zero market price is dropped by the JS truthiness guard and shows no
indicator), the Dashboard flags a seller price at or below the market
price green — with the delta shown as savings exactly when it is a
strict saving — flags a seller price above the market price red with the
markup delta, and at equality shows the green flag with no delta, never
a markup warning; the add-listing modal likewise warns only above the
market price, is favorable strictly below and neutral at equality. -/
theorem priceIndicator_policy (price m : ℚ) (hm : 0 < m) (hp : 0 < price) :
    (price ≤ m → (dashboardPriceIndicator price (some m)).1 = .green)
    ∧ (price < m →
        dashboardPriceIndicator price (some m)
          = (.green, .savings (m - price)))
    ∧ (price = m →
        dashboardPriceIndicator price (some m) = (.green, .noneShown))
    ∧ (m < price →
        dashboardPriceIndicator price (some m)
          = (.red, .markup (price - m)))
    ∧ (price = m → addModalPriceMessage (some price) m = .neutral)
    ∧ (m < price → addModalPriceMessage (some price) m = .tooHigh)
    ∧ (price < m →
        addModalPriceMessage (some price) m = .newLowest price) := by
  refine ⟨?_, ?_, ?_, ?_, ?_, ?_, ?_⟩
  · intro h
    simp [dashboardPriceIndicator, hm.ne', h]
  · intro h
    simp [dashboardPriceIndicator, hm.ne', le_of_lt h, h]
  · intro h
    subst h
    simp [dashboardPriceIndicator, hm.ne', lt_irrefl]
  · intro h
    simp [dashboardPriceIndicator, hm.ne', not_le.mpr h, h]
  · intro h
    subst h
    simp [addModalPriceMessage, hp, lt_irrefl]
  · intro h
    simp [addModalPriceMessage, hp, h]
  · intro h
    simp [addModalPriceMessage, hp, h, not_lt.mpr (le_of_lt h)]

/-- Witness for C2 at seller price 2 against market price 3 (strictly
below: favorable with the saving shown) and seller price 3 against
market price 3 (equal: green with no delta, and neutral in the modal —
not a markup warning). -/
theorem priceIndicator_policy_witness :
    dashboardPriceIndicator 2 (some 3) = (.green, .savings 1)
    ∧ dashboardPriceIndicator 3 (some 3) = (.green, .noneShown)
    ∧ addModalPriceMessage (some 3) 3 = .neutral
    ∧ dashboardPriceIndicator 4 (some 3) = (.red, .markup 1) := by
  refine ⟨?_, ?_, ?_, ?_⟩
  · have h := (priceIndicator_policy 2 3 (by norm_num) (by norm_num)).2.1
      (by norm_num)
    norm_num at h
    exact h
  · exact (priceIndicator_policy 3 3 (by norm_num) (by norm_num)).2.2.1 rfl
  · exact (priceIndicator_policy 3 3 (by norm_num)
      (by norm_num)).2.2.2.2.1 rfl
  · have h := (priceIndicator_policy 4 3 (by norm_num)
      (by norm_num)).2.2.2.1 (by norm_num)
    norm_num at h
    exact h

/-! ### Admin create-sale (`AdminDashboard.tsx`) -/

/-- A row of the `user_products` table (a seller's listing). -/
structure UserProduct where
  id : String
  user_id : String
  product_id : String
  name : String
  size : String
  price : ℚ
  image_url : Option String
  original_price : ℚ
  payout : ℚ
  sku : Option String
deriving DecidableEq

/-- A row of the `user_sales` table. -/
structure UserSale where
  user_id : String
  product_id : String
  name : String
  size : String
  price : ℚ
  image_url : Option String
  payout : ℚ
  status : String
  original_product_id : String
deriving DecidableEq

/-- The sale row `handleCreateSale` inserts for a listing: the listing's
fields copied over, status `'completed'`, and the listing's id recorded
as `original_product_id`. -/
def saleOf (p : UserProduct) : UserSale :=
  ⟨p.user_id, p.product_id, p.name, p.size, p.price, p.image_url,
    p.payout, "completed", p.id⟩

/-- The two backend tables the admin create-sale action touches. -/
structure AdminDbState where
  sales : List UserSale
  listings : List UserProduct
deriving DecidableEq

/-- Function `handleCreateSale` from `AdminDashboard.tsx`, with the two
fallible backend writes made explicit: first the insert into
`user_sales`, then — only if the insert succeeded — the delete from
`user_products`; a failing step throws into the catch block, which never
undoes the earlier step.  Returns the resulting backend state and
whether the success message was reached. -/
def handleCreateSale (st : AdminDbState) (p : UserProduct)
    (insertOk deleteOk : Bool) : AdminDbState × Bool :=
  if insertOk then
    let st₁ : AdminDbState := ⟨st.sales ++ [saleOf p], st.listings⟩
    if deleteOk then
      (⟨st₁.sales, st₁.listings.filter fun q => q.id != p.id⟩, true)
    else (st₁, false)
  else (st, false)

/-- C5: the create-sale action inserts a `'completed'` sale copying the
listing's fields, with `original_product_id` the listing's id, before it
deletes the listing; when the delete fails after a successful insert,
the inserted sale is kept (no rollback) and the listing is still
present, leaving both rows. -/
theorem handleCreateSale_no_rollback (st : AdminDbState) (p : UserProduct)
    (hp : p ∈ st.listings) :
    (saleOf p).status = "completed"
    ∧ (saleOf p).user_id = p.user_id
    ∧ (saleOf p).product_id = p.product_id
    ∧ (saleOf p).name = p.name
    ∧ (saleOf p).size = p.size
    ∧ (saleOf p).price = p.price
    ∧ (saleOf p).image_url = p.image_url
    ∧ (saleOf p).payout = p.payout
    ∧ (saleOf p).original_product_id = p.id
    ∧ (handleCreateSale st p true true).1.sales = st.sales ++ [saleOf p]
    ∧ (handleCreateSale st p true true).1.listings
        = st.listings.filter (fun q => q.id != p.id)
    ∧ (handleCreateSale st p true false).1.sales = st.sales ++ [saleOf p]
    ∧ (handleCreateSale st p true false).1.listings = st.listings
    ∧ (handleCreateSale st p true false).2 = false
    ∧ saleOf p ∈ (handleCreateSale st p true false).1.sales
    ∧ p ∈ (handleCreateSale st p true false).1.listings := by
  refine ⟨rfl, rfl, rfl, rfl, rfl, rfl, rfl, rfl, rfl, rfl, rfl, rfl,
    rfl, rfl, ?_, ?_⟩
  · simp [handleCreateSale]
  · simpa [handleCreateSale] using hp

/-- A concrete listing used by the create-sale witness. -/
def saleWitnessListing : UserProduct :=
  ⟨"l1", "u1", "p1", "Shoe", "42", 100, none, 90, 75, none⟩

/-- A concrete backend state holding only `saleWitnessListing`. -/
def saleWitnessState : AdminDbState := ⟨[], [saleWitnessListing]⟩

/-- Witness for C5: on the concrete one-listing state, after a
successful insert and a failed delete both the completed sale and the
original listing are present. -/
theorem handleCreateSale_no_rollback_witness :
    (saleOf saleWitnessListing).status = "completed"
    ∧ (saleOf saleWitnessListing).original_product_id = "l1"
    ∧ saleOf saleWitnessListing
        ∈ (handleCreateSale saleWitnessState saleWitnessListing
            true false).1.sales
    ∧ saleWitnessListing
        ∈ (handleCreateSale saleWitnessState saleWitnessListing
            true false).1.listings := by
  have h := handleCreateSale_no_rollback saleWitnessState
    saleWitnessListing (by simp [saleWitnessState])
  exact ⟨h.1, h.2.2.2.2.2.2.2.2.1, h.2.2.2.2.2.2.2.2.2.2.2.2.2.2.1,
    h.2.2.2.2.2.2.2.2.2.2.2.2.2.2.2⟩

/-! ### Add-listing submission (`AddProductModal.tsx`) -/

/-- A row of the `products` reference catalog. -/
structure CatalogProduct where
  id : String
  name : String
  image_url : String
  sku : String
deriving DecidableEq

/-- Result of the add-listing submission: either the inline error
message is set and nothing is written, or a `user_products` row is
inserted. -/
inductive SubmitOutcome where
  | rejected (msg : String)
  | inserted (row : UserProduct)
deriving DecidableEq

/-- The validation message of `handleSubmit` in `AddProductModal.tsx`. -/
def addProductErrorMsg : String :=
  "Prosím, vyberte produkt, veľkosť a zadajte platnú cenu."

/-- Function `handleSubmit` from `AddProductModal.tsx`.  The entered
price string is represented by its `parseFloat` result (`none` for NaN);
the guard `!selectedProduct || !selectedSize || isNaN(numericNewPrice)
|| numericNewPrice <= 0` rejects with the inline error message, and
otherwise a fresh `user_products` row is inserted with the payout
computed from the current fees. -/
def handleSubmit (selectedProduct : Option CatalogProduct)
    (selectedSize : String) (parsedPrice : Option ℚ)
    (fees : AdminSettings) (recommendedPrice : ℚ)
    (userId newProductId : String) : SubmitOutcome :=
  match selectedProduct, parsedPrice with
  | some sp, some price =>
    if selectedSize = "" ∨ price ≤ 0 then .rejected addProductErrorMsg
    else
      .inserted ⟨newProductId, userId, sp.id, sp.name, selectedSize,
        price, some sp.image_url, recommendedPrice,
        calculatePayout price fees.fee_percent fees.fee_fixed,
        some sp.sku⟩
  | _, _ => .rejected addProductErrorMsg

/-- C10: the add-listing submission inserts a row exactly when a product
is selected, a size is selected, and the entered price parses to a
strictly positive number; in every other case no insert happens and the
inline error message is set instead. -/
theorem handleSubmit_guard (sp : Option CatalogProduct) (sz : String)
    (pr : Option ℚ) (fees : AdminSettings) (rec : ℚ)
    (uid nid : String) :
    ((∃ row, handleSubmit sp sz pr fees rec uid nid = .inserted row)
      ↔ (∃ p, sp = some p) ∧ sz ≠ "" ∧ ∃ q, pr = some q ∧ 0 < q)
    ∧ (handleSubmit sp sz pr fees rec uid nid
        = .rejected addProductErrorMsg
      ↔ sp = none ∨ sz = "" ∨ pr = none
        ∨ ∃ q, pr = some q ∧ q ≤ 0) := by
  cases sp with
  | none => simp [handleSubmit]
  | some p =>
    cases pr with
    | none => simp [handleSubmit]
    | some q =>
      by_cases hsz : sz = ""
      · by_cases hq : q ≤ 0 <;> simp [handleSubmit, hsz, hq]
      · by_cases hq : q ≤ 0
        · simp [handleSubmit, hsz, hq, hq.not_lt]
        · simp [handleSubmit, hsz, hq, lt_of_not_le hq]

/-- A concrete catalog product used by the submission witness. -/
def submitWitnessProduct : CatalogProduct :=
  ⟨"p1", "Shoe", "img.png", "SKU-1"⟩

/-- Witness for C10: with a selected product, size "42" and price 120
the submission inserts a row; with the empty size it rejects with the
inline error message. -/
theorem handleSubmit_guard_witness :
    (∃ row, handleSubmit (some submitWitnessProduct) "42" (some 120)
      defaultFees 100 "u1" "n1" = .inserted row)
    ∧ handleSubmit (some submitWitnessProduct) "" (some 120)
        defaultFees 100 "u1" "n1" = .rejected addProductErrorMsg := by
  constructor
  · exact (handleSubmit_guard (some submitWitnessProduct) "42" (some 120)
      defaultFees 100 "u1" "n1").1.mpr
      ⟨⟨submitWitnessProduct, rfl⟩, by simp, 120, rfl, by norm_num⟩
  · exact (handleSubmit_guard (some submitWitnessProduct) "" (some 120)
      defaultFees 100 "u1" "n1").2.mpr (Or.inr (Or.inl rfl))

/-! ### PGRST116 handling (`AdminDashboard.tsx`, `Profile.tsx`) -/

/-- Observable outcome of the admin-status check: the resulting
`isAdmin` flag, the screen-scoped `error` message (if any), and whether
the error branch logged the query failure (`console.error`). -/
structure AdminCheckOutcome where
  isAdmin : Bool
  message : Option String
  logged : Bool
deriving DecidableEq

/-- Function `checkAdminStatus` from `AdminDashboard.tsx`: a query error
whose code differs from `'PGRST116'` is logged and forces non-admin;
otherwise (no error, or the distinguished no-row code) the row's
presence decides admin status, and an absent row sets the
"no admin privileges" message. -/
def checkAdminStatus (adminData : Bool) (adminError : Option String) :
    AdminCheckOutcome :=
  match adminError with
  | some code =>
    if code ≠ "PGRST116" then ⟨false, none, true⟩
    else ⟨adminData,
      if adminData then none else some "You do not have admin privileges.",
      false⟩
  | none =>
    ⟨adminData,
      if adminData then none else some "You do not have admin privileges.",
      false⟩

/-- A row of the `profiles` table; every column is nullable. -/
structure ProfileRow where
  first_name : Option String
  last_name : Option String
  ico : Option String
  address : Option String
  popisne_cislo : Option String
  psc : Option String
  mesto : Option String
  krajina : Option String
  email : Option String
  telephone : Option String
  iban : Option String
deriving DecidableEq

/-- The in-memory profile state of `Profile.tsx`. -/
structure IProfile where
  first_name : String
  last_name : String
  ico : String
  address : String
  popisne_cislo : String
  psc : String
  mesto : String
  krajina : String
  email : String
  telephone : String
  iban : String
deriving DecidableEq

/-- The initial `useState` profile of `Profile.tsx`. -/
def initialProfile : IProfile :=
  ⟨"", "", "", "", "", "", "", "Slovensko", "", "", ""⟩

/-- The JS `||` fallback on a nullable string: a null or empty value is
replaced by the default. -/
def jsOr (o : Option String) (dflt : String) : String :=
  match o with
  | some s => if s = "" then dflt else s
  | none => dflt

/-- Function `getProfile` from `Profile.tsx`: the fetched row (if any)
populates the profile with `||` fallbacks, an absent row keeps the
initial profile with only the email filled in from the auth user, and
the query error is logged (`console.error`) only when its code differs
from `'PGRST116'`.  Returns the profile together with the logged flag. -/
def loadProfile (userEmail : String) (profileData : Option ProfileRow)
    (profileError : Option String) : IProfile × Bool :=
  let prof : IProfile :=
    match profileData with
    | some d =>
      ⟨jsOr d.first_name "", jsOr d.last_name "", jsOr d.ico "",
        jsOr d.address "", jsOr d.popisne_cislo "", jsOr d.psc "",
        jsOr d.mesto "", jsOr d.krajina "Slovensko",
        jsOr d.email userEmail, jsOr d.telephone "", jsOr d.iban ""⟩
    | none => { initialProfile with email := userEmail }
  let logged : Bool :=
    match profileError with
    | some code => code != "PGRST116"
    | none => false
  (prof, logged)

/-- C9: the distinguished no-row code `'PGRST116'` is benign: the
admin-status check then behaves exactly as a successful empty result
(non-admin, failure not logged), and the profile load proceeds with the
empty profile, logging nothing; any other error code is logged as a
failure by both. -/
theorem pgrst116_benign (code : String) (d : Bool) (em : String)
    (h : code ≠ "PGRST116") :
    checkAdminStatus false (some "PGRST116") = checkAdminStatus false none
    ∧ (checkAdminStatus false (some "PGRST116")).isAdmin = false
    ∧ (checkAdminStatus false (some "PGRST116")).logged = false
    ∧ checkAdminStatus d (some code) = ⟨false, none, true⟩
    ∧ loadProfile em none (some "PGRST116")
        = ({ initialProfile with email := em }, false)
    ∧ (loadProfile em none (some code)).2 = true := by
  refine ⟨rfl, rfl, rfl, ?_, ?_, ?_⟩
  · simp [checkAdminStatus, h]
  · simp [loadProfile]
  · simp [loadProfile, h]

/-- Witness for C9 at the concrete error code "42P01". -/
theorem pgrst116_benign_witness :
    checkAdminStatus false (some "PGRST116") = checkAdminStatus false none
    ∧ (checkAdminStatus false (some "PGRST116")).isAdmin = false
    ∧ (checkAdminStatus false (some "PGRST116")).logged = false
    ∧ checkAdminStatus true (some "42P01") = ⟨false, none, true⟩
    ∧ loadProfile "a@b.cz" none (some "PGRST116")
        = ({ initialProfile with email := "a@b.cz" }, false)
    ∧ (loadProfile "a@b.cz" none (some "42P01")).2 = true :=
  pgrst116_benign "42P01" true "a@b.cz" (by simp)
